import Mathlib

/-!
Shallow embedding of the essay-agent HITL workflow.

The embedding mirrors the repository source:
* `src/src/state.py`   — the `EssayState` TypedDict (all fields optional) becomes a
  record of `Option`-typed fields; `none` models an absent key.
* `src/src/nodes.py`   — each stage node is a function from the state to a *partial*
  update, modelled as a record in which `none` means "key not returned".
  The language-model collaborator `call_llm(system, user) -> str` is an
  explicit function parameter `llm`; the Tavily web-search collaborator is a
  function returning `Except` (an exception of any kind, rendered as the string
  `type(e).__name__ ++ ": " ++ str(e)`, becomes `Except.error`).
* `src/src/graph_builder.py` — the static topology, plus an executable
  orchestrator `runGraph` that walks that topology exactly as the compiled
  LangGraph does (each invocation starts at START; the HITL stop nodes edge to
  END, so a call always runs the pipeline from `classify` down to the first
  unsatisfied gate or to a terminal node).
* `src/src/runner.py`  — `run_essay_graph` builds the input dict (fields included
  only when truthy, skip flags always included), merges it into the
  checkpointed state for the thread (LangGraph channels: a supplied key
  overwrites, an absent key is untouched) and invokes the graph.
-/

/-- The language-model collaborator: `call_llm(system_prompt, user_prompt) -> text`. -/
abbrev LLM := String → String → String

/-- The web-search collaborator: a query either yields a result string or fails
with an exception rendered as `"TypeName: message"`. -/
abbrev SearchFn := String → Except String String

/-- Dictionary-merge on one field: the value from the update wins when present
(the returned key overwrites), otherwise the old value is kept. -/
def ov {α : Type} (u o : Option α) : Option α :=
  match u with
  | some v => some v
  | none => o

/-- Python `str.strip()`: remove leading and trailing whitespace.
(Implemented over the character list so that proofs can evaluate it.) -/
def pyStrip (s : String) : String :=
  ⟨((s.data.dropWhile Char.isWhitespace).reverse.dropWhile Char.isWhitespace).reverse⟩

/-- Python `str.lower()` (ASCII, which covers every character the code uses). -/
def pyLower (s : String) : String :=
  ⟨s.data.map Char.toLower⟩

/-- Python `str.upper()` (ASCII). -/
def pyUpper (s : String) : String :=
  ⟨s.data.map Char.toUpper⟩

/-- Python `s.startswith(pre)`. -/
def pyStartsWith (s pre : String) : Bool :=
  pre.data.isPrefixOf s.data

/-- Contiguous sublist test, structurally recursive so proofs can evaluate it. -/
def subListOf (pat : List Char) : List Char → Bool
  | [] => pat.isEmpty
  | c :: t => pat.isPrefixOf (c :: t) || subListOf pat t

/-- Python `pat in s` on strings: substring containment. -/
def strContainsSub (s pat : String) : Bool :=
  subListOf pat.data s.data

/-- Split a character list on newline characters (keeping empty pieces). -/
def splitOnNl : List Char → List (List Char)
  | [] => [[]]
  | x :: t =>
      let r := splitOnNl t
      if x = '\n' then [] :: r
      else
        match r with
        | [] => [[x]]
        | h :: t2 => (x :: h) :: t2

/-- Python `str.splitlines()` for newline-separated text: no trailing empty
line for a trailing newline, and `"".splitlines() == []`. -/
def pySplitlines (s : String) : List String :=
  if s.data = [] then []
  else
    let parts := (splitOnNl s.data).map fun l => (⟨l⟩ : String)
    if s.data.getLast? = some '\n' then parts.dropLast else parts

/-- Python `line.split(":", 1)[1]`: everything after the first colon.
(Only reached in the source when the line is known to contain a colon;
we return `""` in the impossible colon-free case to stay total.) -/
def pyAfterFirstColon (line : String) : String :=
  ⟨(line.data.dropWhile (fun c => c ≠ ':')).tail⟩

/-- Keep an optional string only when it is Python-truthy (present and
non-empty) — the `if field:` guards of `run_essay_graph`. -/
def optNonEmpty (o : Option String) : Option String :=
  match o with
  | some s => if s = "" then none else some s
  | none => none

/-- `src/src/state.py` — `EssayState(TypedDict, total=False)`: every field is
optional; `none` models an absent key.  The same record type doubles as the
partial update returned by a node (`none` = key not in the returned dict). -/
structure EssayState where
  user_input : Option String := none
  mode : Option String := none
  topic : Option String := none
  instructions : Option String := none
  clarification_questions : Option String := none
  clarification_answers : Option String := none
  clarifications_used : Option Bool := none
  plan : Option String := none
  plan_feedback : Option String := none
  plan_validated : Option Bool := none
  research_notes : Option String := none
  draft : Option String := none
  draft_feedback_human : Option String := none
  draft_approved : Option Bool := none
  critique : Option String := none
  saved : Option Bool := none
  final_draft : Option String := none
  final_feedback : Option String := none
  final_approved : Option Bool := none
  answer : Option String := none
  human_feedback : Option String := none
  skip_clarification : Option Bool := none
  skip_plan_review : Option Bool := none
  skip_draft_review : Option Bool := none
deriving DecidableEq

/-- LangGraph channel merge: each key returned by a node (or supplied as
input) overwrites; absent keys keep their previous value. -/
def mergeState (old upd : EssayState) : EssayState where
  user_input := ov upd.user_input old.user_input
  mode := ov upd.mode old.mode
  topic := ov upd.topic old.topic
  instructions := ov upd.instructions old.instructions
  clarification_questions := ov upd.clarification_questions old.clarification_questions
  clarification_answers := ov upd.clarification_answers old.clarification_answers
  clarifications_used := ov upd.clarifications_used old.clarifications_used
  plan := ov upd.plan old.plan
  plan_feedback := ov upd.plan_feedback old.plan_feedback
  plan_validated := ov upd.plan_validated old.plan_validated
  research_notes := ov upd.research_notes old.research_notes
  draft := ov upd.draft old.draft
  draft_feedback_human := ov upd.draft_feedback_human old.draft_feedback_human
  draft_approved := ov upd.draft_approved old.draft_approved
  critique := ov upd.critique old.critique
  saved := ov upd.saved old.saved
  final_draft := ov upd.final_draft old.final_draft
  final_feedback := ov upd.final_feedback old.final_feedback
  final_approved := ov upd.final_approved old.final_approved
  answer := ov upd.answer old.answer
  human_feedback := ov upd.human_feedback old.human_feedback
  skip_clarification := ov upd.skip_clarification old.skip_clarification
  skip_plan_review := ov upd.skip_plan_review old.skip_plan_review
  skip_draft_review := ov upd.skip_draft_review old.skip_draft_review

/-- System prompt of `classify_intent`. -/
def classifySystemPrompt : String :=
  "You are an intent classifier for an essay assistant.\n" ++
  "Decide if the user wants: (1) an ESSAY, or (2) a simple OPEN_QUESTION answer.\n" ++
  "Return exactly one word: \x27essay\x27 or \x27open_question\x27."

/-- `src/src/nodes.py` lines 11-38: decide essay vs open question; no-op when a
valid `mode` is already in the state. -/
def classify_intent (llm : LLM) (state : EssayState) : EssayState :=
  if state.mode = some "essay" ∨ state.mode = some "open_question" then
    {}
  else
    let user_input := state.user_input.getD ""
    let result := pyLower (pyStrip (llm classifySystemPrompt user_input))
    let mode :=
      if strContainsSub result "essay" then "essay"
      else if strContainsSub result "open" then "open_question"
      else "essay"
    { mode := some mode }

/-- System prompt of `analyze_topic`. -/
def analyzeSystemPrompt : String :=
  "You are an assistant that extracts a clean essay TOPIC and INSTRUCTIONS " ++
  "(tone, length, audience, constraints) from a user request.\n" ++
  "You also propose clarification questions for the human.\n\n" ++
  "Return the result as:\nTOPIC: ...\nINSTRUCTIONS: ...\nCLARIFICATION_QUESTIONS:\n- ...\n- ...\n- ..."

/-- Accumulator of the line loop of `analyze_topic`. -/
structure AnalyzeAcc where
  topic : String := ""
  instructions : String := ""
  clarification_questions : String := ""
  current_section : Option String := none
deriving DecidableEq

/-- One iteration of the `for line in analysis.splitlines()` loop of
`analyze_topic` (`src/src/nodes.py` lines 66-81). -/
def analyzeLine (acc : AnalyzeAcc) (line : String) : AnalyzeAcc :=
  let upper := pyStrip (pyUpper line)
  if pyStartsWith upper "TOPIC:" then
    { acc with current_section := some "topic", topic := pyStrip (pyAfterFirstColon line) }
  else if pyStartsWith upper "INSTRUCTIONS:" then
    { acc with current_section := some "instructions",
               instructions := pyStrip (pyAfterFirstColon line) }
  else if pyStartsWith upper "CLARIFICATION_QUESTIONS" then
    { acc with current_section := some "clarifications" }
  else if acc.current_section = some "instructions" ∧ pyStrip line ≠ "" then
    { acc with instructions := acc.instructions ++ " " ++ pyStrip line }
  else if acc.current_section = some "clarifications" ∧ pyStrip line ≠ "" then
    { acc with clarification_questions := acc.clarification_questions ++ line ++ "\n" }
  else
    acc

/-- Parse the structured analysis reply by section headers. -/
def parseAnalysis (analysis : String) : AnalyzeAcc :=
  (pySplitlines analysis).foldl analyzeLine {}

/-- `src/src/nodes.py` lines 41-90: extract topic, instructions and
clarification questions; blank topic falls back to the stripped user input. -/
def analyze_topic (llm : LLM) (state : EssayState) : EssayState :=
  let user_input := state.user_input.getD ""
  let analysis := llm analyzeSystemPrompt user_input
  let acc := parseAnalysis analysis
  let topic := if acc.topic = "" then pyStrip user_input else acc.topic
  { topic := some topic
    instructions := some acc.instructions
    clarification_questions := some (pyStrip acc.clarification_questions) }

/-- System prompt of `plan_essay`. -/
def planSystemPrompt : String :=
  "You are an expert essay planner. Create a clear bullet-point OUTLINE for the essay.\n" ++
  "Use 3–6 main sections with short explanations."

/-- `src/src/nodes.py` lines 93-108: produce an outline. -/
def plan_essay (llm : LLM) (state : EssayState) : EssayState :=
  let topic := state.topic.getD ""
  let instructions := state.instructions.getD ""
  let user := "Topic: " ++ topic ++ "\nInstructions: " ++ instructions ++
    "\n\nCreate the outline."
  { plan := some (llm planSystemPrompt user) }

/-- System prompt of `plan_human_review` (revision branch). -/
def planReviewSystemPrompt : String :=
  "You are helping to revise an outline based on HUMAN FEEDBACK.\n" ++
  "Improve the plan accordingly, while keeping it clear and structured."

/-- User prompt of the `plan_human_review` revision branch. -/
def planReviewUserPrompt (plan feedback : String) : String :=
  "CURRENT PLAN:\n" ++ plan ++ "\n\nHUMAN FEEDBACK:\n" ++ feedback ++
  "\n\nReturn the revised plan."

/-- `src/src/nodes.py` lines 111-139: revise the plan when feedback is present;
in both branches mark the plan validated. -/
def plan_human_review (llm : LLM) (state : EssayState) : EssayState :=
  let plan := state.plan.getD ""
  let feedback := pyStrip (state.plan_feedback.getD "")
  if feedback ≠ "" then
    { plan := some (llm planReviewSystemPrompt (planReviewUserPrompt plan feedback))
      plan_validated := some true }
  else
    { plan_validated := some true }

/-- System prompt of the LLM-only research fallback. -/
def researchFallbackSystemPrompt : String :=
  "You are a research assistant. Based on the topic, outline, and any clarifications, " ++
  "produce a short set of research notes (facts, arguments, references). " ++
  "Do NOT write the full essay, just notes."

/-- The search query assembled by `research_agentic`. -/
def researchQuery (topic plan clarification_answers : String) : String :=
  "Essay topic: " ++ topic ++ ". Use this outline to guide research: " ++ plan ++
  ". Take into account these clarifications from the human (if any): " ++
  clarification_answers

/-- The visible failure marker appended by the research fallback, with the
rendered exception (`type(e).__name__ ++ ": " ++ str(e)`) inside. -/
def researchFailureMarker (e : String) : String :=
  "[Note: Tavily web search failed or is not configured. Error: " ++ e ++ "]"

/-- User prompt of the LLM-only research fallback. -/
def researchFallbackUserPrompt (topic plan clarification_answers : String) : String :=
  "Topic: " ++ topic ++ "\n\nOutline:\n" ++ plan ++
  "\n\nClarification answers (may be empty): " ++ clarification_answers ++
  "\n\nWe could not use a web search API (Tavily). " ++
  "Just rely on your own knowledge to produce research notes."

/-- The full fallback research notes: model-only notes plus the visible marker. -/
def researchFallbackNotes (llm : LLM) (topic plan clarification_answers e : String) : String :=
  llm researchFallbackSystemPrompt
    (researchFallbackUserPrompt topic plan clarification_answers) ++
  "\n\n" ++ researchFailureMarker e

/-- `src/src/nodes.py` lines 142-211: try the Tavily search tool first; on any
exception fall back to model-only notes and append the visible failure marker. -/
def research_agentic (search : SearchFn) (llm : LLM) (state : EssayState) : EssayState :=
  let topic := state.topic.getD ""
  let plan := state.plan.getD ""
  let clarification_answers := state.clarification_answers.getD ""
  let query := researchQuery topic plan clarification_answers
  let clarifications_used := pyStrip clarification_answers ≠ ""
  match search query with
  | Except.ok tavily_result =>
      { research_notes := some ("Web research (Tavily) results:\n\nQuery: " ++ query ++
          "\n\n" ++ tavily_result)
        clarifications_used := some clarifications_used }
  | Except.error e =>
      { research_notes := some (researchFallbackNotes llm topic plan clarification_answers e)
        clarifications_used := some clarifications_used }

/-- System prompt of `write_draft`. -/
def writeSystemPrompt : String :=
  "You are a senior essay writer. Write a coherent essay following the outline.\n" ++
  "If there is a previous version, improve it; otherwise, draft from scratch.\n" ++
  "If there is HUMAN FEEDBACK on the draft, use it to guide your improvements.\n" ++
  "Aim for clarity, structure, and good academic style."

/-- `src/src/nodes.py` lines 214-243: write a draft using the whole context. -/
def write_draft (llm : LLM) (state : EssayState) : EssayState :=
  let topic := state.topic.getD ""
  let instructions := state.instructions.getD ""
  let plan := state.plan.getD ""
  let research_notes := state.research_notes.getD ""
  let previous_draft := state.draft.getD ""
  let draft_feedback_human := state.draft_feedback_human.getD ""
  let user :=
    "Topic: " ++ topic ++ "\nInstructions: " ++ instructions ++
    "\n\nOutline:\n" ++ plan ++ "\n\nResearch notes:\n" ++ research_notes ++
    "\n\nPrevious draft (if any):\n" ++ previous_draft ++
    "\n\nHuman feedback on draft (if any):\n" ++ draft_feedback_human
  { draft := some (llm writeSystemPrompt user) }

/-- System prompt of `critic_node`. -/
def criticSystemPrompt : String :=
  "You are an essay critic. Evaluate the draft against the topic and instructions.\n" ++
  "1) List strengths and weaknesses.\n2) Give a quality score between 0 and 10."

/-- `src/src/nodes.py` lines 246-265: produce a critique; never touches the draft. -/
def critic_node (llm : LLM) (state : EssayState) : EssayState :=
  let draft := state.draft.getD ""
  let topic := state.topic.getD ""
  let instructions := state.instructions.getD ""
  let user := "Topic: " ++ topic ++ "\nInstructions: " ++ instructions ++
    "\n\nDraft:\n" ++ draft
  { critique := some (llm criticSystemPrompt user) }

/-- `src/src/nodes.py` lines 268-275: mark the frozen intermediate result. -/
def save_to_db (_state : EssayState) : EssayState :=
  { saved := some true }

/-- System prompt of the `finalize_essay` revision branch. -/
def finalizeSystemPrompt : String :=
  "You are improving an essay based on critic comments and HUMAN FINAL FEEDBACK.\n" ++
  "Apply the requested changes while keeping quality high."

/-- The effective final feedback of `finalize_essay`:
`state.get("final_feedback") or state.get("human_feedback", "")`. -/
def effectiveFinalFeedback (state : EssayState) : String :=
  match state.final_feedback with
  | some s => if s = "" then state.human_feedback.getD "" else s
  | none => state.human_feedback.getD ""

/-- User prompt of the `finalize_essay` revision branch. -/
def finalizeUserPrompt (draft critique final_feedback : String) : String :=
  "Original draft:\n" ++ draft ++ "\n\nCritique:\n" ++ critique ++
  "\n\nHuman final feedback:\n" ++ final_feedback ++
  "\n\nProduce the final improved essay."

/-- `src/src/nodes.py` lines 278-310: apply final feedback when present,
otherwise pass the draft through; always approve and expose `answer`. -/
def finalize_essay (llm : LLM) (state : EssayState) : EssayState :=
  let draft := state.draft.getD ""
  let critique := state.critique.getD ""
  let final_feedback := effectiveFinalFeedback state
  let final_draft :=
    if final_feedback ≠ "" then
      llm finalizeSystemPrompt (finalizeUserPrompt draft critique final_feedback)
    else
      draft
  { final_draft := some final_draft
    final_approved := some true
    answer := some final_draft }

/-- System prompt of `basic_llm_response`. -/
def basicSystemPrompt : String :=
  "You are a helpful assistant. Answer the user question directly.\n" ++
  "If the user asks for an essay-like answer, you can write a short structured reply, " ++
  "but do NOT overcomplicate it."

/-- `src/src/nodes.py` lines 313-325: one-shot answer for the non-essay branch. -/
def basic_llm_response (llm : LLM) (state : EssayState) : EssayState :=
  let user_input := state.user_input.getD ""
  { answer := some (llm basicSystemPrompt user_input) }

/-- `src/src/nodes.py` lines 349-354. -/
def route_from_classify (state : EssayState) : String :=
  let mode := state.mode.getD "open_question"
  if mode = "essay" then "analyze" else "basic_reply"

/-- `src/src/nodes.py` lines 357-368. -/
def route_from_analyze (state : EssayState) : String :=
  let answers := pyStrip (state.clarification_answers.getD "")
  let skip := state.skip_clarification.getD false
  if answers = "" ∧ skip = false then "stop_after_analyze" else "plan"

/-- `src/src/nodes.py` lines 371-381. -/
def route_from_plan_review (state : EssayState) : String :=
  let feedback := pyStrip (state.plan_feedback.getD "")
  let skip := state.skip_plan_review.getD false
  if feedback = "" ∧ skip = false then "stop_after_plan_review" else "research"

/-- `src/src/nodes.py` lines 384-396: stop only when no skip AND no explicit
decision (`draft_approved is None`); any explicit decision goes to `save`. -/
def route_from_critic (state : EssayState) : String :=
  let skip := state.skip_draft_review.getD false
  let draft_approved := state.draft_approved
  if skip = false ∧ draft_approved = none then "stop_after_critic" else "save"

/-- `src/src/graph_builder.py` lines 52, 75, 87-88, 101, 104-108: the
unconditional edges of the compiled graph. -/
def graphEdges : List (String × String) :=
  [("START", "classify"), ("plan", "plan_review"), ("research", "write"),
   ("write", "critic"), ("save", "finalize"), ("basic_reply", "END"),
   ("finalize", "END"), ("stop_after_analyze", "END"),
   ("stop_after_plan_review", "END"), ("stop_after_critic", "END")]

/-- `src/src/graph_builder.py` lines 55-98: the conditional edges
`(source, router label ↦ target)`. -/
def conditionalEdges : List (String × List (String × String)) :=
  [("classify", [("analyze", "analyze"), ("basic_reply", "basic_reply")]),
   ("analyze", [("plan", "plan"), ("stop_after_analyze", "stop_after_analyze")]),
   ("plan_review", [("research", "research"),
                    ("stop_after_plan_review", "stop_after_plan_review")]),
   ("critic", [("save", "save"), ("stop_after_critic", "stop_after_critic")])]

/-- Orchestrator tail from the `critic` gate: `critic →{save, stop_after_critic}`,
`save → finalize → END` (`src/src/graph_builder.py` lines 91-101).  Returns the
final state and the last node executed before END. -/
def runFromCritic (llm : LLM) (s7 : EssayState) : EssayState × String :=
  if route_from_critic s7 = "stop_after_critic" then
    (s7, "stop_after_critic")
  else
    let s8 := mergeState s7 (save_to_db s7)
    let s9 := mergeState s8 (finalize_essay llm s8)
    (s9, "finalize")

/-- Orchestrator tail from `plan_review`: `plan_review →{research, gate}`,
`research → write → critic` (`src/src/graph_builder.py` lines 77-98). -/
def runFromPlanReview (search : SearchFn) (llm : LLM) (s4 : EssayState) :
    EssayState × String :=
  if route_from_plan_review s4 = "stop_after_plan_review" then
    (s4, "stop_after_plan_review")
  else
    let s5 := mergeState s4 (research_agentic search llm s4)
    let s6 := mergeState s5 (write_draft llm s5)
    let s7 := mergeState s6 (critic_node llm s6)
    runFromCritic llm s7

/-- Orchestrator tail from `analyze`: `analyze →{plan, gate}`,
`plan → plan_review` (`src/src/graph_builder.py` lines 65-75). -/
def runFromAnalyze (search : SearchFn) (llm : LLM) (s2 : EssayState) :
    EssayState × String :=
  if route_from_analyze s2 = "stop_after_analyze" then
    (s2, "stop_after_analyze")
  else
    let s3 := mergeState s2 (plan_essay llm s2)
    let s4 := mergeState s3 (plan_human_review llm s3)
    runFromPlanReview search llm s4

/-- One graph invocation: `START → classify`, then either the essay pipeline or
`basic_reply` (`src/src/graph_builder.py`).  The compiled graph is a DAG whose
stop nodes edge to END, so every invocation starts again at `classify` and runs
until a gate or terminal node; the gate nodes themselves return `{}`. -/
def runGraph (search : SearchFn) (llm : LLM) (s0 : EssayState) :
    EssayState × String :=
  let s1 := mergeState s0 (classify_intent llm s0)
  if route_from_classify s1 = "analyze" then
    runFromAnalyze search llm (mergeState s1 (analyze_topic llm s1))
  else
    (mergeState s1 (basic_llm_response llm s1), "basic_reply")

/-- The keyword arguments of `run_essay_graph` (`src/src/runner.py` lines 9-21). -/
structure RunInputs where
  user_input : String
  clarification_answers : Option String := none
  plan_feedback : Option String := none
  draft_feedback_human : Option String := none
  draft_approved : Option Bool := none
  final_feedback : Option String := none
  skip_clarification : Bool := false
  skip_plan_review : Bool := false
  skip_draft_review : Bool := false
deriving DecidableEq

/-- `src/src/runner.py` lines 40-58: the `initial_state` dict passed to
`graph.invoke` — `user_input` always, the optional text fields only when
truthy, `draft_approved` when not `None`, and the three skip flags always. -/
def initialState (a : RunInputs) : EssayState :=
  { user_input := some a.user_input
    clarification_answers := optNonEmpty a.clarification_answers
    plan_feedback := optNonEmpty a.plan_feedback
    draft_feedback_human := optNonEmpty a.draft_feedback_human
    draft_approved := a.draft_approved
    final_feedback := optNonEmpty a.final_feedback
    skip_clarification := some a.skip_clarification
    skip_plan_review := some a.skip_plan_review
    skip_draft_review := some a.skip_draft_review }

/-- `src/src/runner.py` lines 40-66: one `run_essay_graph` call on a thread whose
checkpointed state is `prev` (the empty record for a fresh thread): the input
dict is merged into the thread state channel-wise, then the graph runs. -/
def run_essay_graph (search : SearchFn) (llm : LLM) (prev : EssayState)
    (a : RunInputs) : EssayState × String :=
  runGraph search llm (mergeState prev (initialState a))

/-- A sequence of `run_essay_graph` calls on the same thread identifier,
threading the checkpointed state through. -/
def runSequence (search : SearchFn) (llm : LLM) (prev : EssayState)
    (calls : List RunInputs) : EssayState :=
  calls.foldl (fun s a => (run_essay_graph search llm s a).1) prev

@[simp] theorem ov_none {α : Type} (o : Option α) : ov none o = o := rfl

@[simp] theorem ov_some {α : Type} (v : α) (o : Option α) : ov (some v) o = some v := rfl

/-- Projections of the channel merge on the fields the invariants track. -/
@[simp] theorem mergeState_proj (old upd : EssayState) :
    (mergeState old upd).user_input = ov upd.user_input old.user_input ∧
    (mergeState old upd).clarification_answers
      = ov upd.clarification_answers old.clarification_answers ∧
    (mergeState old upd).plan_feedback = ov upd.plan_feedback old.plan_feedback ∧
    (mergeState old upd).draft_approved = ov upd.draft_approved old.draft_approved ∧
    (mergeState old upd).plan_validated = ov upd.plan_validated old.plan_validated ∧
    (mergeState old upd).skip_clarification
      = ov upd.skip_clarification old.skip_clarification ∧
    (mergeState old upd).skip_plan_review = ov upd.skip_plan_review old.skip_plan_review ∧
    (mergeState old upd).skip_draft_review
      = ov upd.skip_draft_review old.skip_draft_review :=
  ⟨rfl, rfl, rfl, rfl, rfl, rfl, rfl, rfl⟩

/-- `classify_intent` returns at most `mode`. -/
@[simp] theorem classify_intent_frame (llm : LLM) (s : EssayState) :
    (classify_intent llm s).user_input = none ∧
    (classify_intent llm s).clarification_answers = none ∧
    (classify_intent llm s).plan_feedback = none ∧
    (classify_intent llm s).draft_approved = none ∧
    (classify_intent llm s).plan_validated = none ∧
    (classify_intent llm s).skip_clarification = none ∧
    (classify_intent llm s).skip_plan_review = none ∧
    (classify_intent llm s).skip_draft_review = none := by
  unfold classify_intent
  split <;> exact ⟨rfl, rfl, rfl, rfl, rfl, rfl, rfl, rfl⟩

/-- `analyze_topic` returns only topic / instructions / clarification questions. -/
@[simp] theorem analyze_topic_frame (llm : LLM) (s : EssayState) :
    (analyze_topic llm s).user_input = none ∧
    (analyze_topic llm s).clarification_answers = none ∧
    (analyze_topic llm s).plan_feedback = none ∧
    (analyze_topic llm s).draft_approved = none ∧
    (analyze_topic llm s).plan_validated = none ∧
    (analyze_topic llm s).skip_clarification = none ∧
    (analyze_topic llm s).skip_plan_review = none ∧
    (analyze_topic llm s).skip_draft_review = none :=
  ⟨rfl, rfl, rfl, rfl, rfl, rfl, rfl, rfl⟩

/-- `plan_essay` returns only `plan`. -/
@[simp] theorem plan_essay_frame (llm : LLM) (s : EssayState) :
    (plan_essay llm s).user_input = none ∧
    (plan_essay llm s).clarification_answers = none ∧
    (plan_essay llm s).plan_feedback = none ∧
    (plan_essay llm s).draft_approved = none ∧
    (plan_essay llm s).plan_validated = none ∧
    (plan_essay llm s).skip_clarification = none ∧
    (plan_essay llm s).skip_plan_review = none ∧
    (plan_essay llm s).skip_draft_review = none :=
  ⟨rfl, rfl, rfl, rfl, rfl, rfl, rfl, rfl⟩

/-- `plan_human_review` returns at most `plan`, and always `plan_validated = true`. -/
@[simp] theorem plan_human_review_frame (llm : LLM) (s : EssayState) :
    (plan_human_review llm s).user_input = none ∧
    (plan_human_review llm s).clarification_answers = none ∧
    (plan_human_review llm s).plan_feedback = none ∧
    (plan_human_review llm s).draft_approved = none ∧
    (plan_human_review llm s).plan_validated = some true ∧
    (plan_human_review llm s).skip_clarification = none ∧
    (plan_human_review llm s).skip_plan_review = none ∧
    (plan_human_review llm s).skip_draft_review = none := by
  unfold plan_human_review
  refine ⟨?_, ?_, ?_, ?_, ?_, ?_, ?_, ?_⟩ <;> (dsimp only; split <;> rfl)

/-- `research_agentic` returns only research notes and the clarifications flag. -/
@[simp] theorem research_agentic_frame (search : SearchFn) (llm : LLM) (s : EssayState) :
    (research_agentic search llm s).user_input = none ∧
    (research_agentic search llm s).clarification_answers = none ∧
    (research_agentic search llm s).plan_feedback = none ∧
    (research_agentic search llm s).draft_approved = none ∧
    (research_agentic search llm s).plan_validated = none ∧
    (research_agentic search llm s).skip_clarification = none ∧
    (research_agentic search llm s).skip_plan_review = none ∧
    (research_agentic search llm s).skip_draft_review = none := by
  unfold research_agentic
  dsimp only
  split <;> exact ⟨rfl, rfl, rfl, rfl, rfl, rfl, rfl, rfl⟩

/-- `write_draft` returns only `draft`. -/
@[simp] theorem write_draft_frame (llm : LLM) (s : EssayState) :
    (write_draft llm s).user_input = none ∧
    (write_draft llm s).clarification_answers = none ∧
    (write_draft llm s).plan_feedback = none ∧
    (write_draft llm s).draft_approved = none ∧
    (write_draft llm s).plan_validated = none ∧
    (write_draft llm s).skip_clarification = none ∧
    (write_draft llm s).skip_plan_review = none ∧
    (write_draft llm s).skip_draft_review = none :=
  ⟨rfl, rfl, rfl, rfl, rfl, rfl, rfl, rfl⟩

/-- `critic_node` returns only `critique` — in particular it never mutates the draft. -/
@[simp] theorem critic_node_frame (llm : LLM) (s : EssayState) :
    (critic_node llm s).user_input = none ∧
    (critic_node llm s).clarification_answers = none ∧
    (critic_node llm s).plan_feedback = none ∧
    (critic_node llm s).draft_approved = none ∧
    (critic_node llm s).plan_validated = none ∧
    (critic_node llm s).skip_clarification = none ∧
    (critic_node llm s).skip_plan_review = none ∧
    (critic_node llm s).skip_draft_review = none :=
  ⟨rfl, rfl, rfl, rfl, rfl, rfl, rfl, rfl⟩

/-- `save_to_db` returns only `saved`. -/
@[simp] theorem save_to_db_frame (s : EssayState) :
    (save_to_db s).user_input = none ∧
    (save_to_db s).clarification_answers = none ∧
    (save_to_db s).plan_feedback = none ∧
    (save_to_db s).draft_approved = none ∧
    (save_to_db s).plan_validated = none ∧
    (save_to_db s).skip_clarification = none ∧
    (save_to_db s).skip_plan_review = none ∧
    (save_to_db s).skip_draft_review = none :=
  ⟨rfl, rfl, rfl, rfl, rfl, rfl, rfl, rfl⟩

/-- `finalize_essay` returns only final draft / approval / answer. -/
@[simp] theorem finalize_essay_frame (llm : LLM) (s : EssayState) :
    (finalize_essay llm s).user_input = none ∧
    (finalize_essay llm s).clarification_answers = none ∧
    (finalize_essay llm s).plan_feedback = none ∧
    (finalize_essay llm s).draft_approved = none ∧
    (finalize_essay llm s).plan_validated = none ∧
    (finalize_essay llm s).skip_clarification = none ∧
    (finalize_essay llm s).skip_plan_review = none ∧
    (finalize_essay llm s).skip_draft_review = none :=
  ⟨rfl, rfl, rfl, rfl, rfl, rfl, rfl, rfl⟩

/-- `basic_llm_response` returns only `answer`. -/
@[simp] theorem basic_llm_response_frame (llm : LLM) (s : EssayState) :
    (basic_llm_response llm s).user_input = none ∧
    (basic_llm_response llm s).clarification_answers = none ∧
    (basic_llm_response llm s).plan_feedback = none ∧
    (basic_llm_response llm s).draft_approved = none ∧
    (basic_llm_response llm s).plan_validated = none ∧
    (basic_llm_response llm s).skip_clarification = none ∧
    (basic_llm_response llm s).skip_plan_review = none ∧
    (basic_llm_response llm s).skip_draft_review = none :=
  ⟨rfl, rfl, rfl, rfl, rfl, rfl, rfl, rfl⟩

/-- Projections of the `initial_state` dict built by `run_essay_graph`. -/
@[simp] theorem initialState_proj (a : RunInputs) :
    (initialState a).user_input = some a.user_input ∧
    (initialState a).clarification_answers = optNonEmpty a.clarification_answers ∧
    (initialState a).plan_feedback = optNonEmpty a.plan_feedback ∧
    (initialState a).draft_approved = a.draft_approved ∧
    (initialState a).plan_validated = none ∧
    (initialState a).skip_clarification = some a.skip_clarification ∧
    (initialState a).skip_plan_review = some a.skip_plan_review ∧
    (initialState a).skip_draft_review = some a.skip_draft_review :=
  ⟨rfl, rfl, rfl, rfl, rfl, rfl, rfl, rfl⟩

/-- The `save → finalize` tail never touches the invariant-tracked fields. -/
@[simp] theorem runFromCritic_pres (llm : LLM) (s7 : EssayState) :
    (runFromCritic llm s7).1.user_input = s7.user_input ∧
    (runFromCritic llm s7).1.clarification_answers = s7.clarification_answers ∧
    (runFromCritic llm s7).1.plan_feedback = s7.plan_feedback ∧
    (runFromCritic llm s7).1.draft_approved = s7.draft_approved ∧
    (runFromCritic llm s7).1.plan_validated = s7.plan_validated ∧
    (runFromCritic llm s7).1.skip_clarification = s7.skip_clarification ∧
    (runFromCritic llm s7).1.skip_plan_review = s7.skip_plan_review ∧
    (runFromCritic llm s7).1.skip_draft_review = s7.skip_draft_review := by
  unfold runFromCritic
  refine ⟨?_, ?_, ?_, ?_, ?_, ?_, ?_, ?_⟩ <;> (dsimp only; split <;> simp)

/-- The `research → write → critic → …` tail never touches these fields. -/
@[simp] theorem runFromPlanReview_pres (search : SearchFn) (llm : LLM) (s4 : EssayState) :
    (runFromPlanReview search llm s4).1.user_input = s4.user_input ∧
    (runFromPlanReview search llm s4).1.clarification_answers = s4.clarification_answers ∧
    (runFromPlanReview search llm s4).1.plan_feedback = s4.plan_feedback ∧
    (runFromPlanReview search llm s4).1.draft_approved = s4.draft_approved ∧
    (runFromPlanReview search llm s4).1.plan_validated = s4.plan_validated ∧
    (runFromPlanReview search llm s4).1.skip_clarification = s4.skip_clarification ∧
    (runFromPlanReview search llm s4).1.skip_plan_review = s4.skip_plan_review ∧
    (runFromPlanReview search llm s4).1.skip_draft_review = s4.skip_draft_review := by
  unfold runFromPlanReview
  refine ⟨?_, ?_, ?_, ?_, ?_, ?_, ?_, ?_⟩ <;> (dsimp only; split <;> simp)

/-- The `plan → plan_review → …` tail never touches these fields
(`plan_validated` is treated separately: `plan_review` sets it). -/
@[simp] theorem runFromAnalyze_pres (search : SearchFn) (llm : LLM) (s2 : EssayState) :
    (runFromAnalyze search llm s2).1.user_input = s2.user_input ∧
    (runFromAnalyze search llm s2).1.clarification_answers = s2.clarification_answers ∧
    (runFromAnalyze search llm s2).1.plan_feedback = s2.plan_feedback ∧
    (runFromAnalyze search llm s2).1.draft_approved = s2.draft_approved ∧
    (runFromAnalyze search llm s2).1.skip_clarification = s2.skip_clarification ∧
    (runFromAnalyze search llm s2).1.skip_plan_review = s2.skip_plan_review ∧
    (runFromAnalyze search llm s2).1.skip_draft_review = s2.skip_draft_review := by
  unfold runFromAnalyze
  refine ⟨?_, ?_, ?_, ?_, ?_, ?_, ?_⟩ <;> (dsimp only; split <;> simp)

/-- After `analyze`, either execution halts at the clarification gate with
`plan_validated` untouched, or `plan_review` has run and `plan_validated` is true. -/
theorem runFromAnalyze_pv (search : SearchFn) (llm : LLM) (s2 : EssayState) :
    (runFromAnalyze search llm s2).1.plan_validated = s2.plan_validated ∨
    (runFromAnalyze search llm s2).1.plan_validated = some true := by
  unfold runFromAnalyze
  split
  · exact Or.inl rfl
  · exact Or.inr (by simp)

/-- A whole graph invocation never touches these caller-owned fields. -/
@[simp] theorem runGraph_pres (search : SearchFn) (llm : LLM) (s0 : EssayState) :
    (runGraph search llm s0).1.user_input = s0.user_input ∧
    (runGraph search llm s0).1.clarification_answers = s0.clarification_answers ∧
    (runGraph search llm s0).1.plan_feedback = s0.plan_feedback ∧
    (runGraph search llm s0).1.draft_approved = s0.draft_approved ∧
    (runGraph search llm s0).1.skip_clarification = s0.skip_clarification ∧
    (runGraph search llm s0).1.skip_plan_review = s0.skip_plan_review ∧
    (runGraph search llm s0).1.skip_draft_review = s0.skip_draft_review := by
  unfold runGraph
  refine ⟨?_, ?_, ?_, ?_, ?_, ?_, ?_⟩ <;> (dsimp only; split <;> simp)

/-- One graph invocation either leaves `plan_validated` as it was or sets it true. -/
theorem runGraph_pv (search : SearchFn) (llm : LLM) (s0 : EssayState) :
    (runGraph search llm s0).1.plan_validated = s0.plan_validated ∨
    (runGraph search llm s0).1.plan_validated = some true := by
  unfold runGraph
  dsimp only
  split
  · rcases runFromAnalyze_pv search llm
      (mergeState (mergeState s0 (classify_intent llm s0))
        (analyze_topic llm (mergeState s0 (classify_intent llm s0)))) with h | h
    · exact Or.inl (by rw [h]; simp)
    · exact Or.inr h
  · exact Or.inl (by simp)

/-- The critic router re-halts whenever no skip is set and no decision exists. -/
theorem route_from_critic_of_none (s : EssayState)
    (h1 : s.draft_approved = none) (h2 : s.skip_draft_review.getD false = false) :
    route_from_critic s = "stop_after_critic" := by
  unfold route_from_critic
  simp [h1, h2]

/-- All terminal positions a graph invocation can report. -/
theorem runGraph_pos (search : SearchFn) (llm : LLM) (s0 : EssayState) :
    (runGraph search llm s0).2 = "basic_reply" ∨
    (runGraph search llm s0).2 = "stop_after_analyze" ∨
    (runGraph search llm s0).2 = "stop_after_plan_review" ∨
    (runGraph search llm s0).2 = "stop_after_critic" ∨
    (runGraph search llm s0).2 = "finalize" := by
  unfold runGraph runFromAnalyze runFromPlanReview runFromCritic
  dsimp only
  split
  · split
    · exact Or.inr (Or.inl rfl)
    · split
      · exact Or.inr (Or.inr (Or.inl rfl))
      · split
        · exact Or.inr (Or.inr (Or.inr (Or.inl rfl)))
        · exact Or.inr (Or.inr (Or.inr (Or.inr rfl)))
  · exact Or.inl rfl

/-- With no skip and no explicit decision in the thread state, a graph
invocation never reaches `save`/`finalize`: it halts at a gate (or takes the
non-essay branch). -/
theorem runGraph_not_past_critic (search : SearchFn) (llm : LLM) (s0 : EssayState)
    (h1 : s0.draft_approved = none) (h2 : s0.skip_draft_review.getD false = false) :
    (runGraph search llm s0).2 ≠ "finalize" := by
  unfold runGraph runFromAnalyze runFromPlanReview runFromCritic
  dsimp only
  split
  · split
    · simp
    · split
      · simp
      · split
        · simp
        · rename_i hroute
          exfalso
          exact hroute (route_from_critic_of_none _ (by simp [h1]) (by simp [h2]))
  · simp

/-- Further projections of the channel merge. -/
@[simp] theorem mergeState_proj2 (old upd : EssayState) :
    (mergeState old upd).draft_feedback_human
      = ov upd.draft_feedback_human old.draft_feedback_human ∧
    (mergeState old upd).final_feedback = ov upd.final_feedback old.final_feedback ∧
    (mergeState old upd).mode = ov upd.mode old.mode ∧
    (mergeState old upd).topic = ov upd.topic old.topic ∧
    (mergeState old upd).plan = ov upd.plan old.plan ∧
    (mergeState old upd).human_feedback = ov upd.human_feedback old.human_feedback :=
  ⟨rfl, rfl, rfl, rfl, rfl, rfl⟩

/-- Further projections of the `initial_state` dict. -/
@[simp] theorem initialState_proj2 (a : RunInputs) :
    (initialState a).draft_feedback_human = optNonEmpty a.draft_feedback_human ∧
    (initialState a).final_feedback = optNonEmpty a.final_feedback ∧
    (initialState a).mode = none ∧
    (initialState a).topic = none ∧
    (initialState a).plan = none ∧
    (initialState a).human_feedback = none :=
  ⟨rfl, rfl, rfl, rfl, rfl, rfl⟩

@[simp] theorem optNonEmpty_none : optNonEmpty none = none := rfl

@[simp] theorem optNonEmpty_some_empty : optNonEmpty (some "") = none := by
  simp [optNonEmpty]

theorem optNonEmpty_some_of_ne (v : String) (h : v ≠ "") :
    optNonEmpty (some v) = some v := by
  simp [optNonEmpty, h]

theorem subListOf_iff (pat l : List Char) : subListOf pat l = true ↔ pat <:+: l := by
  induction l with
  | nil => simp [subListOf, List.isEmpty_iff]
  | cons c t ih => simp [subListOf, List.infix_cons_iff, ih]

theorem strContainsSub_iff (s pat : String) :
    strContainsSub s pat = true ↔ pat.data <:+: s.data := by
  simp [strContainsSub, subListOf_iff]

theorem strContainsSub_refl (s : String) : strContainsSub s s = true := by
  rw [strContainsSub_iff]

theorem strContainsSub_append_left (a m pat : String)
    (h : strContainsSub m pat = true) : strContainsSub (a ++ m) pat = true := by
  rw [strContainsSub_iff] at h ⊢
  obtain ⟨u, v, huv⟩ := h
  refine ⟨a.data ++ u, v, ?_⟩
  have hl : (a ++ m).data = a.data ++ m.data := rfl
  rw [hl, ← huv]
  simp [List.append_assoc]

theorem strContainsSub_append_right (m b pat : String)
    (h : strContainsSub m pat = true) : strContainsSub (m ++ b) pat = true := by
  rw [strContainsSub_iff] at h ⊢
  obtain ⟨u, v, huv⟩ := h
  refine ⟨u, v ++ b.data, ?_⟩
  have hl : (m ++ b).data = m.data ++ b.data := rfl
  rw [hl, ← huv]
  simp [List.append_assoc]

/-- C1, counterexample: the claim says that with `skip_draft_review` false,
supplying `draft_approved` explicitly false makes the critic router return
`stop_after_critic`.  On the code (`route_from_critic`, `src/src/nodes.py`
lines 384-396) an explicit `False` decision is NOT `None`, so the router
returns `"save"` and the run advances past the gate. -/
theorem C1_counterexample :
    ({ skip_draft_review := some false, draft_approved := some false } :
        EssayState).skip_draft_review = some false ∧
    ({ skip_draft_review := some false, draft_approved := some false } :
        EssayState).draft_approved = some false ∧
    route_from_critic { skip_draft_review := some false, draft_approved := some false }
      = "save" ∧
    route_from_critic { skip_draft_review := some false, draft_approved := some false }
      ≠ "stop_after_critic" := by
  refine ⟨rfl, rfl, by decide, by decide⟩

/-- C1 (amended): for every state in which `skip_draft_review` is false,
supplying NO value of `draft_approved` (absent / `None`) never advances past
`GATE_critic`: the critic router returns `stop_after_critic`, and a graph
invocation on such a thread state never reaches `finalize` — absence of a
decision with no skip simply re-halts at the same gate on the next call.  Any
EXPLICIT decision, true or false, advances to `save`. -/
theorem C1_amended_theorem (search : SearchFn) (llm : LLM) (s : EssayState)
    (hskip : s.skip_draft_review.getD false = false)
    (hda : s.draft_approved = none) :
    route_from_critic s = "stop_after_critic" ∧
    (runGraph search llm s).2 ≠ "finalize" ∧
    (∀ b : Bool, route_from_critic { s with draft_approved := some b } = "save") := by
  refine ⟨route_from_critic_of_none s hda hskip,
    runGraph_not_past_critic search llm s hda hskip, ?_⟩
  intro b
  unfold route_from_critic
  simp [hskip]

/-- C1 witness: the amended theorem applied to a concrete thread state with
no skip and no decision. -/
theorem C1_amended_witness :
    route_from_critic { user_input := some "write about AI", skip_draft_review := some false }
      = "stop_after_critic" ∧
    (runGraph (fun _ => Except.error "KeyError: TAVILY_API_KEY") (fun _ _ => "essay")
      { user_input := some "write about AI", skip_draft_review := some false }).2
      ≠ "finalize" ∧
    (∀ b : Bool, route_from_critic
      { user_input := some "write about AI", skip_draft_review := some false,
        draft_approved := some b } = "save") :=
  C1_amended_theorem (fun _ => Except.error "KeyError: TAVILY_API_KEY")
    (fun _ _ => "essay")
    { user_input := some "write about AI", skip_draft_review := some false }
    (by decide) (by decide)

/-- C2: on a later call, input fields supplied empty (in particular an empty
`clarification_answers`) are not put into the input dict by `run_essay_graph`
(`src/src/runner.py` lines 44-53), so they do not overwrite previously stored
values — neither at merge time nor through the graph run — while fields
supplied non-empty do overwrite. -/
theorem C2_theorem (search : SearchFn) (llm : LLM) (prev : EssayState) (a : RunInputs)
    (h : a.clarification_answers = none ∨ a.clarification_answers = some "") :
    (mergeState prev (initialState a)).clarification_answers
      = prev.clarification_answers ∧
    (run_essay_graph search llm prev a).1.clarification_answers
      = prev.clarification_answers ∧
    ((a.plan_feedback = none ∨ a.plan_feedback = some "") →
      (mergeState prev (initialState a)).plan_feedback = prev.plan_feedback) ∧
    ((a.draft_feedback_human = none ∨ a.draft_feedback_human = some "") →
      (mergeState prev (initialState a)).draft_feedback_human
        = prev.draft_feedback_human) ∧
    ((a.final_feedback = none ∨ a.final_feedback = some "") →
      (mergeState prev (initialState a)).final_feedback = prev.final_feedback) ∧
    (∀ v : String, v ≠ "" → a.clarification_answers = some v →
      (mergeState prev (initialState a)).clarification_answers = some v) := by
  have hca : optNonEmpty a.clarification_answers = none := by
    rcases h with h | h <;> simp [h]
  refine ⟨by simp [hca], ?_, ?_, ?_, ?_, ?_⟩
  · simp [run_essay_graph, hca]
  · intro h2
    have : optNonEmpty a.plan_feedback = none := by rcases h2 with h2 | h2 <;> simp [h2]
    simp [this]
  · intro h2
    have : optNonEmpty a.draft_feedback_human = none := by
      rcases h2 with h2 | h2 <;> simp [h2]
    simp [this]
  · intro h2
    have : optNonEmpty a.final_feedback = none := by rcases h2 with h2 | h2 <;> simp [h2]
    simp [this]
  · intro v hv hsome
    simp [hsome, optNonEmpty_some_of_ne v hv]

/-- C2 witness: a concrete later call supplying `clarification_answers = ""`
on a thread that already stored a non-empty answer. -/
theorem C2_witness :
    (mergeState { clarification_answers := some "focus on Y" }
      (initialState { user_input := "write about X", clarification_answers := some "" })
      ).clarification_answers = some "focus on Y" ∧
    (run_essay_graph (fun _ => Except.error "E: e") (fun _ _ => "open")
      { clarification_answers := some "focus on Y" }
      { user_input := "write about X", clarification_answers := some "" }
      ).1.clarification_answers = some "focus on Y" ∧
    ((({ user_input := "write about X", clarification_answers := some "" } :
        RunInputs).plan_feedback = none ∨
      ({ user_input := "write about X", clarification_answers := some "" } :
        RunInputs).plan_feedback = some "") →
      (mergeState { clarification_answers := some "focus on Y" }
        (initialState { user_input := "write about X", clarification_answers := some "" })
        ).plan_feedback = ({ clarification_answers := some "focus on Y" } :
          EssayState).plan_feedback) ∧
    ((({ user_input := "write about X", clarification_answers := some "" } :
        RunInputs).draft_feedback_human = none ∨
      ({ user_input := "write about X", clarification_answers := some "" } :
        RunInputs).draft_feedback_human = some "") →
      (mergeState { clarification_answers := some "focus on Y" }
        (initialState { user_input := "write about X", clarification_answers := some "" })
        ).draft_feedback_human = ({ clarification_answers := some "focus on Y" } :
          EssayState).draft_feedback_human) ∧
    ((({ user_input := "write about X", clarification_answers := some "" } :
        RunInputs).final_feedback = none ∨
      ({ user_input := "write about X", clarification_answers := some "" } :
        RunInputs).final_feedback = some "") →
      (mergeState { clarification_answers := some "focus on Y" }
        (initialState { user_input := "write about X", clarification_answers := some "" })
        ).final_feedback = ({ clarification_answers := some "focus on Y" } :
          EssayState).final_feedback) ∧
    (∀ v : String, v ≠ "" →
      ({ user_input := "write about X", clarification_answers := some "" } :
        RunInputs).clarification_answers = some v →
      (mergeState { clarification_answers := some "focus on Y" }
        (initialState { user_input := "write about X", clarification_answers := some "" })
        ).clarification_answers = some v) :=
  C2_theorem (fun _ => Except.error "E: e") (fun _ _ => "open")
    { clarification_answers := some "focus on Y" }
    { user_input := "write about X", clarification_answers := some "" }
    (by decide)

/-- C3: whenever the web-search collaborator call fails for any reason
(the `except Exception` of `src/src/nodes.py` lines 188-206 covers missing
credentials, import errors, network errors, quota), the research stage still
returns `research_notes` produced by the model-only fallback prompt; the notes
contain the literal visible marker text
`[Note: Tavily web search failed or is not configured. Error: ...]` naming the
rendered error; and `research → write` is an unconditional edge of the
compiled graph (`src/src/graph_builder.py` line 87), so the workflow proceeds
to `write` without halting — the stage itself never raises (it is total). -/
theorem C3_theorem (search : SearchFn) (llm : LLM) (s : EssayState) (e : String)
    (hfail : search (researchQuery (s.topic.getD "") (s.plan.getD "")
      (s.clarification_answers.getD "")) = Except.error e) :
    (research_agentic search llm s).research_notes
      = some (researchFallbackNotes llm (s.topic.getD "") (s.plan.getD "")
          (s.clarification_answers.getD "") e) ∧
    strContainsSub ((research_agentic search llm s).research_notes.getD "")
      "[Note: Tavily web search failed or is not configured. Error: " = true ∧
    strContainsSub ((research_agentic search llm s).research_notes.getD "") e = true ∧
    ("research", "write") ∈ graphEdges := by
  have hnotes : (research_agentic search llm s).research_notes
      = some (researchFallbackNotes llm (s.topic.getD "") (s.plan.getD "")
          (s.clarification_answers.getD "") e) := by
    unfold research_agentic
    dsimp only
    rw [hfail]
  refine ⟨hnotes, ?_, ?_, by decide⟩
  · rw [hnotes]
    unfold researchFallbackNotes researchFailureMarker
    apply strContainsSub_append_left
    apply strContainsSub_append_right
    apply strContainsSub_append_right
    exact strContainsSub_refl _
  · rw [hnotes]
    unfold researchFallbackNotes researchFailureMarker
    apply strContainsSub_append_left
    apply strContainsSub_append_right
    apply strContainsSub_append_left
    exact strContainsSub_refl _

/-- C3 witness: a concrete simulated search failure (missing API key). -/
theorem C3_witness :
    (research_agentic (fun _ => Except.error "KeyError: TAVILY_API_KEY")
      (fun _ _ => "notes from model memory")
      { topic := some "quantum tunneling", plan := some "1. intro" }).research_notes
      = some (researchFallbackNotes (fun _ _ => "notes from model memory")
          "quantum tunneling" "1. intro" "" "KeyError: TAVILY_API_KEY") ∧
    strContainsSub ((research_agentic (fun _ => Except.error "KeyError: TAVILY_API_KEY")
      (fun _ _ => "notes from model memory")
      { topic := some "quantum tunneling", plan := some "1. intro" }).research_notes.getD "")
      "[Note: Tavily web search failed or is not configured. Error: " = true ∧
    strContainsSub ((research_agentic (fun _ => Except.error "KeyError: TAVILY_API_KEY")
      (fun _ _ => "notes from model memory")
      { topic := some "quantum tunneling", plan := some "1. intro" }).research_notes.getD "")
      "KeyError: TAVILY_API_KEY" = true ∧
    ("research", "write") ∈ graphEdges :=
  C3_theorem (fun _ => Except.error "KeyError: TAVILY_API_KEY")
    (fun _ _ => "notes from model memory")
    { topic := some "quantum tunneling", plan := some "1. intro" }
    "KeyError: TAVILY_API_KEY" rfl

/-- C4: for every state, `finalize_essay` sets `final_approved = true` and sets
`answer` equal to `final_draft`; `final_draft` is the draft unchanged when the
effective final feedback is empty, and the model revision of
draft + critique + feedback otherwise; the effective feedback is empty exactly
when `final_feedback` and legacy `human_feedback` are both absent or empty
(`src/src/nodes.py` lines 278-310). -/
theorem C4_theorem (llm : LLM) (s : EssayState) :
    (finalize_essay llm s).final_approved = some true ∧
    (finalize_essay llm s).answer = (finalize_essay llm s).final_draft ∧
    (finalize_essay llm s).final_draft
      = some (if effectiveFinalFeedback s = "" then s.draft.getD ""
              else llm finalizeSystemPrompt (finalizeUserPrompt (s.draft.getD "")
                (s.critique.getD "") (effectiveFinalFeedback s))) ∧
    (effectiveFinalFeedback s = "" ↔
      ((s.final_feedback = none ∨ s.final_feedback = some "") ∧
       (s.human_feedback = none ∨ s.human_feedback = some ""))) := by
  refine ⟨rfl, rfl, ?_, ?_⟩
  · by_cases h : effectiveFinalFeedback s = "" <;> simp [finalize_essay, h]
  · unfold effectiveFinalFeedback
    cases hf : s.final_feedback with
    | none =>
      cases hh : s.human_feedback with
      | none => simp
      | some v => simp
    | some f =>
      by_cases hfe : f = ""
      · subst hfe
        cases hh : s.human_feedback with
        | none => simp
        | some v => simp
      · simp [hfe]

/-- C5, counterexample: the claim says a later `RunStep` call never changes
`user_input`.  But `run_essay_graph` (`src/src/runner.py` line 41) puts its
`user_input` argument into the input dict unconditionally on every call, so a
second call with a different prompt on the same thread replaces the stored
value: after calling with "A" and then with "B", the thread state holds "B". -/
theorem C5_counterexample :
    ((run_essay_graph (fun _ => Except.error "E: e") (fun _ _ => "open")
        {} { user_input := "A" }).1.user_input = some "A") ∧
    ((run_essay_graph (fun _ => Except.error "E: e") (fun _ _ => "open")
        (run_essay_graph (fun _ => Except.error "E: e") (fun _ _ => "open")
          {} { user_input := "A" }).1
        { user_input := "B" }).1.user_input = some "B") ∧
    ((run_essay_graph (fun _ => Except.error "E: e") (fun _ _ => "open")
        (run_essay_graph (fun _ => Except.error "E: e") (fun _ _ => "open")
          {} { user_input := "A" }).1
        { user_input := "B" }).1.user_input ≠ some "A") := by
  refine ⟨by decide, by decide, by decide⟩

/-- C5 (amended): no stage node ever writes `user_input` — a whole graph
invocation leaves it exactly as it was after the input merge — but the entry
point itself unconditionally merges its `user_input` argument on every call,
so after any `run_essay_graph` call the stored value is the argument of that
call; a subsequent call with a different `user_input` therefore changes it. -/
theorem C5_amended_theorem (search : SearchFn) (llm : LLM) (s prev : EssayState)
    (a : RunInputs) :
    (runGraph search llm s).1.user_input = s.user_input ∧
    (run_essay_graph search llm prev a).1.user_input = some a.user_input := by
  refine ⟨by simp, ?_⟩
  simp [run_essay_graph]

/-- C6, counterexample: the claim says a blank parsed topic falls back to the
raw user input VERBATIM, but `analyze_topic` (`src/src/nodes.py` line 84) uses
`user_input.strip()`: with user input `" x "` and a reply with no section
headers, the stored topic is `"x"`, not `" x "`. -/
theorem C6_counterexample :
    (analyze_topic (fun _ _ => "no section headers here")
      { user_input := some " x " }).topic = some "x" ∧
    (analyze_topic (fun _ _ => "no section headers here")
      { user_input := some " x " }).topic ≠ some " x " := by
  refine ⟨by decide, by decide⟩

/-- C6 (amended): `analyze_topic` parses the model reply line by line on the
section headers `TOPIC:`, `INSTRUCTIONS:`, `CLARIFICATION_QUESTIONS`; a blank
parsed topic falls back to the user input stripped of surrounding whitespace
(`user_input.strip()`, not verbatim); a non-blank parsed topic is kept;
continuation lines under INSTRUCTIONS are appended with a separating space and
stripped, continuation lines under CLARIFICATION_QUESTIONS are appended raw
with a newline; and the node is total — an unparseable reply is never an
error, it just yields the fallback topic and empty sections. -/
theorem C6_amended_theorem (llm : LLM) (s : EssayState) (ui line : String)
    (acc : AnalyzeAcc) (hui : s.user_input = some ui) :
    ((parseAnalysis (llm analyzeSystemPrompt ui)).topic = "" →
      (analyze_topic llm s).topic = some (pyStrip ui)) ∧
    ((parseAnalysis (llm analyzeSystemPrompt ui)).topic ≠ "" →
      (analyze_topic llm s).topic
        = some (parseAnalysis (llm analyzeSystemPrompt ui)).topic) ∧
    (analyze_topic llm s).instructions
      = some (parseAnalysis (llm analyzeSystemPrompt ui)).instructions ∧
    (analyze_topic llm s).clarification_questions
      = some (pyStrip (parseAnalysis (llm analyzeSystemPrompt ui)).clarification_questions) ∧
    (pyStartsWith (pyStrip (pyUpper line)) "TOPIC:" = true →
      analyzeLine acc line
        = { acc with
            current_section := some "topic"
            topic := pyStrip (pyAfterFirstColon line) }) ∧
    (pyStartsWith (pyStrip (pyUpper line)) "TOPIC:" = false →
     pyStartsWith (pyStrip (pyUpper line)) "INSTRUCTIONS:" = true →
      analyzeLine acc line
        = { acc with
            current_section := some "instructions"
            instructions := pyStrip (pyAfterFirstColon line) }) ∧
    (pyStartsWith (pyStrip (pyUpper line)) "TOPIC:" = false →
     pyStartsWith (pyStrip (pyUpper line)) "INSTRUCTIONS:" = false →
     pyStartsWith (pyStrip (pyUpper line)) "CLARIFICATION_QUESTIONS" = false →
     pyStrip line ≠ "" →
      (acc.current_section = some "instructions" →
        analyzeLine acc line
          = { acc with instructions := acc.instructions ++ " " ++ pyStrip line }) ∧
      (acc.current_section = some "clarifications" →
        analyzeLine acc line
          = { acc with clarification_questions :=
                acc.clarification_questions ++ line ++ "\n" })) := by
  refine ⟨?_, ?_, ?_, ?_, ?_, ?_, ?_⟩
  · intro h
    simp [analyze_topic, hui, h]
  · intro h
    simp [analyze_topic, hui, h]
  · simp [analyze_topic, hui]
  · simp [analyze_topic, hui]
  · intro h1
    simp [analyzeLine, h1]
  · intro h1 h2
    simp [analyzeLine, h1, h2]
  · intro h1 h2 h3 h4
    constructor
    · intro h5
      simp [analyzeLine, h1, h2, h3, h4, h5]
    · intro h5
      simp [analyzeLine, h1, h2, h3, h4, h5]

/-- C6 witness: the amended theorem at a concrete structured reply with
continuation lines under both sections. -/
theorem C6_amended_witness :
    (parseAnalysis ((fun _ _ => "TOPIC: AI\nINSTRUCTIONS: short\nformal tone\nCLARIFICATION_QUESTIONS:\n- which era?\n- how long?")
        analyzeSystemPrompt "tell me about AI")).topic ≠ "" ∧
    ({ current_section := some "instructions" } : AnalyzeAcc).current_section
      = some "instructions" ∧
    ((parseAnalysis ((fun _ _ => "TOPIC: AI\nINSTRUCTIONS: short\nformal tone\nCLARIFICATION_QUESTIONS:\n- which era?\n- how long?")
        analyzeSystemPrompt "tell me about AI")).topic = "" →
      (analyze_topic (fun _ _ => "TOPIC: AI\nINSTRUCTIONS: short\nformal tone\nCLARIFICATION_QUESTIONS:\n- which era?\n- how long?")
        { user_input := some "tell me about AI" }).topic
        = some (pyStrip "tell me about AI")) := by
  refine ⟨by decide, rfl, ?_⟩
  exact (C6_amended_theorem
    (fun _ _ => "TOPIC: AI\nINSTRUCTIONS: short\nformal tone\nCLARIFICATION_QUESTIONS:\n- which era?\n- how long?")
    { user_input := some "tell me about AI" } "tell me about AI" "formal tone"
    { current_section := some "instructions" } rfl).1

/-- C7: `classify_intent` is a no-op (returns the empty update) whenever `mode`
is already a valid value; otherwise the mode is "essay" when the
stripped/lowercased reply contains "essay", "open_question" when it instead
contains "open", and "essay" by default when it contains neither
(`src/src/nodes.py` lines 11-38); the classify router sends `mode = "essay"`
to `analyze` and any other mode to `basic_reply` (lines 349-354).  The final
conjuncts check the two spec examples: a reply containing "essay" and a reply
containing neither keyword. -/
theorem C7_theorem (llm : LLM) (s : EssayState) (ui : String) :
    ((s.mode = some "essay" ∨ s.mode = some "open_question") →
      classify_intent llm s = {}) ∧
    (¬(s.mode = some "essay" ∨ s.mode = some "open_question") →
     s.user_input = some ui →
      (classify_intent llm s).mode
        = some (if strContainsSub (pyLower (pyStrip (llm classifySystemPrompt ui))) "essay"
                then "essay"
                else if strContainsSub (pyLower (pyStrip (llm classifySystemPrompt ui))) "open"
                then "open_question"
                else "essay")) ∧
    (s.mode = some "essay" → route_from_classify s = "analyze") ∧
    (s.mode ≠ some "essay" → route_from_classify s = "basic_reply") ∧
    strContainsSub (pyLower (pyStrip "I think essay is best")) "essay" = true ∧
    strContainsSub (pyLower (pyStrip "just answer please")) "essay" = false ∧
    strContainsSub (pyLower (pyStrip "just answer please")) "open" = false := by
  refine ⟨?_, ?_, ?_, ?_, by decide, by decide, by decide⟩
  · intro h
    unfold classify_intent
    rw [if_pos h]
  · intro h hui
    simp [classify_intent, h, hui]
  · intro h
    simp [route_from_classify, h]
  · intro h
    unfold route_from_classify
    cases hm : s.mode with
    | none => simp
    | some v =>
      rw [hm] at h
      have : v ≠ "essay" := fun hv => h (by rw [hv])
      simp [this]

/-- C7 witness: the ambiguous reply "just answer please" still classifies as
"essay", and routing behaves as specified on a concrete state. -/
theorem C7_witness :
    (classify_intent (fun _ _ => "just answer please")
      { user_input := some "hello" }).mode = some "essay" ∧
    route_from_classify { mode := some "essay" } = "analyze" ∧
    route_from_classify { mode := some "open_question" } = "basic_reply" := by
  have h := C7_theorem (fun _ _ => "just answer please") { user_input := some "hello" } "hello"
  refine ⟨?_, by decide, by decide⟩
  rw [h.2.1 (by decide) rfl]
  decide

/-- C8: for every state, `plan_human_review` marks `plan_validated = true`; when
the (stripped) plan feedback is non-empty it replaces the plan with the model
revision of plan + feedback, and when feedback is absent or blank it returns no
`plan` key at all, so the merged state keeps the plan untouched while still
marking it validated (`src/src/nodes.py` lines 111-139). -/
theorem C8_theorem (llm : LLM) (s : EssayState) :
    (plan_human_review llm s).plan_validated = some true ∧
    (plan_human_review llm s).plan
      = (if pyStrip (s.plan_feedback.getD "") = "" then none
         else some (llm planReviewSystemPrompt
            (planReviewUserPrompt (s.plan.getD "") (pyStrip (s.plan_feedback.getD ""))))) ∧
    (mergeState s (plan_human_review llm s)).plan
      = (if pyStrip (s.plan_feedback.getD "") = "" then s.plan
         else some (llm planReviewSystemPrompt
            (planReviewUserPrompt (s.plan.getD "") (pyStrip (s.plan_feedback.getD ""))))) ∧
    (mergeState s (plan_human_review llm s)).plan_validated = some true := by
  by_cases h : pyStrip (s.plan_feedback.getD "") = ""
  · refine ⟨?_, ?_, ?_, ?_⟩ <;> simp [plan_human_review, h]
  · refine ⟨?_, ?_, ?_, ?_⟩ <;> simp [plan_human_review, h]

/-- Monotonicity of `plan_validated` across a whole sequence of calls. -/
theorem runSequence_pv (search : SearchFn) (llm : LLM) :
    ∀ (calls : List RunInputs) (prev : EssayState),
      prev.plan_validated = some true →
      (runSequence search llm prev calls).plan_validated = some true := by
  intro calls
  induction calls with
  | nil =>
    intro prev h
    simpa [runSequence] using h
  | cons c cs ih =>
    intro prev h
    have hstep : (run_essay_graph search llm prev c).1.plan_validated = some true := by
      unfold run_essay_graph
      rcases runGraph_pv search llm (mergeState prev (initialState c)) with h2 | h2
      · rw [h2]
        simp [h]
      · exact h2
    simpa [runSequence] using ih (run_essay_graph search llm prev c).1 hstep

/-- C9: `plan_validated` is monotonic — once true for a thread, no node and no
subsequent call resets it: every stage node update either omits the field or
sets it to true (`plan_human_review` is the only writer, `src/src/nodes.py`
lines 111-139), `run_essay_graph` never puts it in the input dict, and any
sequence of further calls keeps it true. -/
theorem C9_theorem (search : SearchFn) (llm : LLM) (prev : EssayState)
    (calls : List RunInputs) (h : prev.plan_validated = some true) :
    (runSequence search llm prev calls).plan_validated = some true ∧
    (∀ s : EssayState,
      (runGraph search llm s).1.plan_validated = s.plan_validated ∨
      (runGraph search llm s).1.plan_validated = some true) ∧
    (∀ s : EssayState, (classify_intent llm s).plan_validated = none) ∧
    (∀ s : EssayState, (analyze_topic llm s).plan_validated = none) ∧
    (∀ s : EssayState, (plan_essay llm s).plan_validated = none) ∧
    (∀ s : EssayState, (plan_human_review llm s).plan_validated = some true) ∧
    (∀ s : EssayState, (research_agentic search llm s).plan_validated = none) ∧
    (∀ s : EssayState, (write_draft llm s).plan_validated = none) ∧
    (∀ s : EssayState, (critic_node llm s).plan_validated = none) ∧
    (∀ s : EssayState, (save_to_db s).plan_validated = none) ∧
    (∀ s : EssayState, (finalize_essay llm s).plan_validated = none) ∧
    (∀ s : EssayState, (basic_llm_response llm s).plan_validated = none) ∧
    (∀ a : RunInputs, (initialState a).plan_validated = none) := by
  refine ⟨runSequence_pv search llm calls prev h, runGraph_pv search llm,
    ?_, ?_, ?_, ?_, ?_, ?_, ?_, ?_, ?_, ?_, ?_⟩ <;> intro s <;> simp

/-- C9 witness: a thread whose plan is already validated stays validated
through one further call. -/
theorem C9_witness :
    (runSequence (fun _ => Except.error "E: e") (fun _ _ => "open")
      { plan_validated := some true } [{ user_input := "again" }]).plan_validated
      = some true ∧
    (∀ s : EssayState,
      (runGraph (fun _ => Except.error "E: e") (fun _ _ => "open") s).1.plan_validated
          = s.plan_validated ∨
      (runGraph (fun _ => Except.error "E: e") (fun _ _ => "open") s).1.plan_validated
          = some true) :=
  ⟨(C9_theorem (fun _ => Except.error "E: e") (fun _ _ => "open")
      { plan_validated := some true } [{ user_input := "again" }] rfl).1,
   (C9_theorem (fun _ => Except.error "E: e") (fun _ _ => "open")
      { plan_validated := some true } [{ user_input := "again" }] rfl).2.1⟩

/-- C10: on every call, `run_essay_graph` (`src/src/runner.py` lines 55-58)
unconditionally writes the three skip flags into the input dict with the
call's argument values (which default to false), so the merged thread state
always carries exactly the current call's skip flags — a resume call that
omits a previously-true skip flag resets it to false — unlike the optional
text fields, which enter the merge only when supplied non-empty, and
`draft_approved`, which enters only when supplied at all. -/
theorem C10_theorem (prev : EssayState) (a : RunInputs) :
    (mergeState prev (initialState a)).skip_clarification = some a.skip_clarification ∧
    (mergeState prev (initialState a)).skip_plan_review = some a.skip_plan_review ∧
    (mergeState prev (initialState a)).skip_draft_review = some a.skip_draft_review ∧
    (a.clarification_answers = none →
      (mergeState prev (initialState a)).clarification_answers
        = prev.clarification_answers) ∧
    (a.plan_feedback = none →
      (mergeState prev (initialState a)).plan_feedback = prev.plan_feedback) ∧
    (a.draft_feedback_human = none →
      (mergeState prev (initialState a)).draft_feedback_human
        = prev.draft_feedback_human) ∧
    (a.final_feedback = none →
      (mergeState prev (initialState a)).final_feedback = prev.final_feedback) ∧
    (a.draft_approved = none →
      (mergeState prev (initialState a)).draft_approved = prev.draft_approved) ∧
    (∀ b : Bool, a.draft_approved = some b →
      (mergeState prev (initialState a)).draft_approved = some b) := by
  refine ⟨by simp, by simp, by simp, ?_, ?_, ?_, ?_, ?_, ?_⟩
  · intro h
    simp [h]
  · intro h
    simp [h]
  · intro h
    simp [h]
  · intro h
    simp [h]
  · intro h
    simp [h]
  · intro b h
    simp [h]

/-- C10 witness: a thread with all skip flags stored true, resumed by a call
that omits them (defaults false): all three are reset to false, while the
omitted optional fields keep their stored values. -/
theorem C10_witness :
    (mergeState
      { clarification_answers := some "keep", skip_clarification := some true,
        skip_plan_review := some true, skip_draft_review := some true }
      (initialState { user_input := "again" })).skip_clarification = some false ∧
    (mergeState
      { clarification_answers := some "keep", skip_clarification := some true,
        skip_plan_review := some true, skip_draft_review := some true }
      (initialState { user_input := "again" })).skip_plan_review = some false ∧
    (mergeState
      { clarification_answers := some "keep", skip_clarification := some true,
        skip_plan_review := some true, skip_draft_review := some true }
      (initialState { user_input := "again" })).skip_draft_review = some false ∧
    (mergeState
      { clarification_answers := some "keep", skip_clarification := some true,
        skip_plan_review := some true, skip_draft_review := some true }
      (initialState { user_input := "again" })).clarification_answers = some "keep" := by
  have h := C10_theorem
    { clarification_answers := some "keep", skip_clarification := some true,
      skip_plan_review := some true, skip_draft_review := some true }
    { user_input := "again" }
  exact ⟨h.1, h.2.1, h.2.2.1, h.2.2.2.1 rfl⟩
